import Mathlib

/-!
Shallow embedding of the genetic-algorithm class scheduler in
`Program 2/main.py`: the domain model, random assignment generation,
the fitness evaluator, the genetic operators and the evolution loop's
convergence decision, together with theorems settling the
specification's claims about them.

Randomness is made explicit: every call the Python code makes into
`random` / `numpy.random` is modelled by an oracle argument (a natural
number, or a function from draw index to a number) and the uniform
choice `random.choice(l)` becomes indexing `l` at `oracle % l.length`
(which fails, like Python, when `l` is empty).  Python `dict`s keyed by
activity identifier become insertion-ordered association lists; `float`
arithmetic on the small scoring constants becomes exact `ℚ` arithmetic;
operations that can raise (`KeyError` on a missing activity identifier
or an unmapped building, `ZeroDivisionError`, `choice` on an empty
sequence) return `Option`.
-/

structure Room where
  building : String
  number : Int
  capacity : Int
deriving DecidableEq

/-- One course section.  The Python field `section` is a Lean keyword, so it
is called `sectionName` here. -/
structure Activity where
  subject : String
  course_number : Int
  sectionName : Option String
  expected_enrollment : Int
  preferred_facilitators : List String
  other_facilitators : List String
deriving DecidableEq

/-- Python's `f"{n:03}"`: decimal rendering zero-padded to width 3, the sign
counting towards the width. -/
def zeroPad3 (n : Int) : String :=
  let sign := if n < 0 then "-" else ""
  let digits := toString n.natAbs
  let padded :=
    if sign.length + digits.length < 3 then
      String.mk (List.replicate (3 - sign.length - digits.length) '0') ++ digits
    else digits
  sign ++ padded

/-- Source `Activity.get_id` (line 33): subject, then the zero-padded course
number, then the section when present. -/
def Activity.get_id (a : Activity) : String :=
  a.subject ++ zeroPad3 a.course_number ++ a.sectionName.getD ""

structure Schedule where
  activities : List Activity
  facilitators : List String
  rooms : List Room
  times : List Int
deriving DecidableEq

structure ActivityAssignment where
  activity : Activity
  facilitator : String
  room : Room
  time : Int
deriving DecidableEq

/-- Python `random.choice(l)`: a uniformly drawn element of `l`, modelled by an
index oracle `r`; raises (`none`) on an empty sequence. -/
def randomChoice {α : Type} (l : List α) (r : ℕ) : Option α :=
  l.get? (r % l.length)

/-- Source `ActivityAssignment.make_random_assignment` (lines 52-59): one fresh gene,
drawing facilitator, room and time independently; `rf rr rt` are the three
`random.choice` oracles. -/
def ActivityAssignment.make_random_assignment (schedule : Schedule) (activity : Activity)
    (rf rr rt : ℕ) : Option ActivityAssignment :=
  match randomChoice schedule.facilitators rf, randomChoice schedule.rooms rr,
      randomChoice schedule.times rt with
  | some f, some room, some t => some ⟨activity, f, room, t⟩
  | _, _, _ => none

/-- A candidate solution: the Python `dict` from activity identifier to gene
becomes an insertion-ordered association list. -/
structure ScheduleAssignment where
  schedule : Schedule
  activities : List (String × ActivityAssignment)
deriving DecidableEq

/-- The dict comprehensions of lines 69-72 and 177-184: build the keyed gene
list in schedule order, the gene at position `i` produced by `gene i`;
fails when any single gene draw fails. -/
def buildGenes (gene : ℕ → Activity → Option ActivityAssignment) :
    ℕ → List Activity → Option (List (String × ActivityAssignment))
  | _, [] => some []
  | i, act :: rest =>
    match gene i act, buildGenes gene (i + 1) rest with
    | some g, some tail => some ((act.get_id, g) :: tail)
    | _, _ => none

/-- Source `ScheduleAssignment.make_random_assignment` (lines 67-73): a fresh random
candidate; `r` supplies the stream of `random.choice` oracles, three per
activity. -/
def ScheduleAssignment.make_random_assignment (schedule : Schedule) (r : ℕ → ℕ) :
    Option ScheduleAssignment :=
  (buildGenes
      (fun i act =>
        ActivityAssignment.make_random_assignment schedule act
          (r (3 * i)) (r (3 * i + 1)) (r (3 * i + 2))) 0
      schedule.activities).map
    (fun acts => ⟨schedule, acts⟩)

/-- The per-gene choice inside `cross_schedules` (lines 180-184): mutate with
probability `mutation_rate` (the draw `random.random()` is `m i ∈ [0,1)`),
otherwise take parent `a`'s gene strictly before the crossover point and
parent `b`'s gene from the point on. -/
def crossGene (schedule : Schedule) (a b : ScheduleAssignment) (mutation_rate : ℚ)
    (chiasma : ℕ) (m : ℕ → ℚ) (r : ℕ → ℕ) (i : ℕ) (activity : Activity) :
    Option ActivityAssignment :=
  if m i < mutation_rate then
    ActivityAssignment.make_random_assignment schedule activity
      (r (3 * i)) (r (3 * i + 1)) (r (3 * i + 2))
  else if i < chiasma then a.activities.lookup activity.get_id
  else b.activities.lookup activity.get_id

/-- Source `cross_schedules` (lines 175-186): one offspring per call.  `chiasma` is
the draw of `random.randint(0, len(schedule.activities) - 1)` (inclusive on
both ends), `m` the per-gene `random.random()` draws and `r` the oracle
stream for the fresh assignments of mutated genes.  As in the source the
offspring records `a.schedule`. -/
def cross_schedules (schedule : Schedule) (a b : ScheduleAssignment) (mutation_rate : ℚ)
    (chiasma : ℕ) (m : ℕ → ℚ) (r : ℕ → ℕ) : Option ScheduleAssignment :=
  (buildGenes (crossGene schedule a b mutation_rate chiasma m r) 0
      schedule.activities).map
    (fun acts => ⟨a.schedule, acts⟩)

/-- Source `building_clusters` (lines 84-91). -/
def building_clusters : List (String × ℕ) :=
  [("Roman", 2), ("Beach", 2), ("Slater", 1), ("Loft", 1), ("Logos", 1), ("Frank", 1)]

/-- Lookup `building_clusters[b]` (lines 98, 163): `none` is Python's `KeyError` on an
unmapped building. -/
def clusterOf (building : String) : Option ℕ :=
  building_clusters.lookup building

/-- The capacity-fit conditional of lines 101-108, with the source's literal
branch ordering (`< 1`, then `> 3`, then `> 6`, then else). -/
def capacityFitTerm (r : ℚ) : ℚ :=
  if r < 1 then -(1/2)
  else if r > 3 then -(1/5)
  else if r > 6 then -(2/5)
  else 3/10

/-- Capacity term of one gene (line 100): `room.capacity / expected_enrollment`
is float division, raising `ZeroDivisionError` (`none`) on zero enrollment. -/
def capacityTerm (g : ActivityAssignment) : Option ℚ :=
  if g.activity.expected_enrollment = 0 then none
  else some (capacityFitTerm ((g.room.capacity : ℚ) / (g.activity.expected_enrollment : ℚ)))

/-- Capacity terms of all genes, in order. -/
def capacityTerms : List ActivityAssignment → Option (List ℚ)
  | [] => some []
  | g :: rest =>
    match capacityTerm g, capacityTerms rest with
    | some t, some tail => some (t :: tail)
    | _, _ => none

/-- Facilitator-preference term of one gene (lines 110-115). -/
def facilitatorPrefTerm (g : ActivityAssignment) : ℚ :=
  if g.facilitator ∈ g.activity.preferred_facilitators then 1/2
  else if g.facilitator ∈ g.activity.other_facilitators then 1/5
  else -(1/10)

/-- Per-(room, time) conflict term (lines 119-120): `load` is the number of
genes sharing the pair. -/
def roomTimeTerm (load : ℕ) : ℚ :=
  if 2 ≤ load then -(1/2) * load else 0

/-- The room/time-conflict rule (lines 118-120): the `Counter` over
`(room, time)` pairs becomes counting in the list of genes, each distinct
pair contributing once. -/
def roomTimePenalty (genes : List ActivityAssignment) : ℚ :=
  let pairs := genes.map (fun g => (g.room, g.time))
  (pairs.dedup.map (fun p => roomTimeTerm (pairs.count p))).sum

/-- Per-facilitator load term (lines 123-130), including the hardcoded
`'Tyler'` exemption for loads below 2. -/
def facilitatorLoadTerm (facilitator : String) (load : ℕ) : ℚ :=
  if facilitator = "Tyler" ∧ load < 2 then 0
  else if load = 1 ∨ load = 2 then -(2/5)
  else if 4 < load then -(1/2)
  else 0

/-- The facilitator-load rule (lines 122-130): one term per facilitator
appearing in the candidate, with that facilitator's activity count. -/
def facilitatorLoadPenalty (genes : List ActivityAssignment) : ℚ :=
  let facs := genes.map (fun g => g.facilitator)
  (facs.dedup.map (fun f => facilitatorLoadTerm f (facs.count f))).sum

/-- Per-(facilitator, time) double-booking term (lines 134-135): a flat
`-0.2` for every group with more than one gene. -/
def facilitatorTimeTerm (load : ℕ) : ℚ :=
  if 1 < load then -(1/5) else 0

/-- The facilitator double-booking rule (lines 133-135). -/
def facilitatorTimePenalty (genes : List ActivityAssignment) : ℚ :=
  let pairs := genes.map (fun g => (g.facilitator, g.time))
  (pairs.dedup.map (fun p => facilitatorTimeTerm (pairs.count p))).sum

/-- The per-gene cluster records `(facilitator, time, cluster)` accumulated by
line 98; `none` is the `KeyError` on an unmapped building. -/
def geneClusters : List ActivityAssignment → Option (List (String × Int × ℕ))
  | [] => some []
  | g :: rest =>
    match clusterOf g.room.building, geneClusters rest with
    | some c, some tail => some ((g.facilitator, g.time, c) :: tail)
    | _, _ => none

/-- The set of clusters a facilitator uses at a given time
(`facilitator_time_building_schedule[fac, time]`, default empty). -/
def clustersAt (l : List (String × Int × ℕ)) (fac : String) (t : Int) : List ℕ :=
  ((l.filter (fun x => x.1 = fac ∧ x.2.1 = t)).map (fun x => x.2.2)).dedup

/-- The consecutive-time travel rule (lines 138-144): for every present
`(facilitator, time)` key and every cluster used there, compare with the
cluster set of the same facilitator at `time - 1`. -/
def travelPenalty (l : List (String × Int × ℕ)) : ℚ :=
  ((l.map (fun x => (x.1, x.2.1))).dedup.map (fun ft =>
    ((clustersAt l ft.1 ft.2).map (fun c =>
      let prev := clustersAt l ft.1 (ft.2 - 1)
      if 1 < prev.length ∨ (prev.length = 1 ∧ c ∉ prev) then -(2/5) else (1/2 : ℚ))).sum)).sum

/-- The paired-section time-gap rule of lines 147-151 and 153-157. -/
def pairGapTerm (t1 t2 : Int) : ℚ :=
  if 4 < |t1 - t2| then 1/2
  else if |t1 - t2| = 0 then -(1/2)
  else 0

/-- One SLA101-section/SLA191-section combination (lines 161-170); the
building-cluster lookups happen only in the `gap == 1` branch, as in the
source. -/
def crossPairTerm (s101 s191 : ActivityAssignment) : Option ℚ :=
  let gap := |s101.time - s191.time|
  if gap = 1 then
    match clusterOf s101.room.building, clusterOf s191.room.building with
    | some c1, some c2 => some (if c1 = c2 then 1/2 else -(2/5))
    | _, _ => none
  else if gap = 2 then some (1/4)
  else if gap = 0 then some (-(1/4))
  else some 0

/-- The four SLA101 × SLA191 combinations of lines 159-170, in loop order. -/
def crossPairTerms (a101A a101B a191A a191B : ActivityAssignment) : Option ℚ :=
  match crossPairTerm a101A a191A, crossPairTerm a101A a191B,
      crossPairTerm a101B a191A, crossPairTerm a101B a191B with
  | some t1, some t2, some t3, some t4 => some (t1 + t2 + t3 + t4)
  | _, _, _, _ => none

/-- The four required named-activity lookups of lines 147-160; `none` is
Python's `KeyError` when the candidate is missing one of them. -/
def namedGenes (sa : ScheduleAssignment) :
    Option (ActivityAssignment × ActivityAssignment × ActivityAssignment × ActivityAssignment) :=
  match sa.activities.lookup "SLA101A", sa.activities.lookup "SLA101B",
      sa.activities.lookup "SLA191A", sa.activities.lookup "SLA191B" with
  | some a101A, some a101B, some a191A, some a191B => some (a101A, a101B, a191A, a191B)
  | _, _, _, _ => none

/-- Source `get_fitness` (lines 76-172): the additive accumulation over all rule
groups; `none` models the exceptions the Python code can raise while
evaluating (unmapped building, zero enrollment, missing named activity). -/
def get_fitness (sa : ScheduleAssignment) : Option ℚ :=
  let genes := sa.activities.map Prod.snd
  match geneClusters genes, capacityTerms genes, namedGenes sa with
  | some gcs, some caps, some (a101A, a101B, a191A, a191B) =>
    match crossPairTerms a101A a101B a191A a191B with
    | some crossTerms =>
      some (caps.sum
        + (genes.map facilitatorPrefTerm).sum
        + roomTimePenalty genes
        + facilitatorLoadPenalty genes
        + facilitatorTimePenalty genes
        + travelPenalty gcs
        + pairGapTerm a101A.time a101B.time
        + pairGapTerm a191A.time a191B.time
        + crossTerms)
    | none => none
  | _, _, _ => none

/-- One round of `numpy.random.choice(..., replace=False, p=...)` (line 191):
draw one index among the remaining entries of positive probability (`pick`
is the random oracle) and delete that index from the remaining pool. -/
def drawOne (pick : ℕ) (avail : List (ℕ × ℚ)) : Option (ℕ × List (ℕ × ℚ)) :=
  let pos := avail.filter (fun x => decide (0 < x.2))
  match pos.get? (pick % pos.length) with
  | none => none
  | some x => some (x.1, avail.filter (fun y => y.1 != x.1))

/-- Repeat `k` without-replacement rounds. -/
def sampleNoReplace (pick : ℕ → ℕ) : ℕ → List (ℕ × ℚ) → Option (List ℕ)
  | 0, _ => some []
  | k + 1, avail =>
    match drawOne (pick k) avail with
    | none => none
    | some (i, rest) => (sampleNoReplace pick k rest).map (fun l => i :: l)

/-- Model of `numpy.random.choice(a, size, replace=False, p)`: raises (`none`) when
`size` exceeds the number of items, otherwise samples `size` distinct
positions. -/
def numpy_choice_indices (pick : ℕ → ℕ) (k : ℕ) (items : List (ℕ × ℚ)) : Option (List ℕ) :=
  if items.length < k then none else sampleNoReplace pick k items

/-- The parent-pool draw of `get_next_generation` (lines 190-191):
`choice(population, parent_pool_size, replace=False, p=softmax(fitness))`,
as the list of drawn population indices.  `weights` stands for
`softmax(population_fitness)` — `scipy.special.softmax` of the fitness
vector, which is strictly positive in every coordinate; the transcendental
exponential itself is kept abstract as the supplied weight vector. -/
def draw_parent_pool (population_size : ℕ) (weights : List ℚ) (parent_pool_size : ℕ)
    (pick : ℕ → ℕ) : Option (List ℕ) :=
  numpy_choice_indices pick parent_pool_size ((List.range population_size).zip weights)

/-- Source `MUTATION_RATE_DECAY` (line 257). -/
def MUTATION_RATE_DECAY : ℚ := 1/2

/-- The per-generation decision of the evolution loop (lines 271-275): given
the generation counter `g`, the previous and current average fitness and
the current mutation rate, return whether the loop stops (`break`, i.e.
CONVERGED) and the mutation rate carried into the next generation.  The
division of line 272 is only evaluated when `g > 100` and raises
`ZeroDivisionError` (`none`) when the previous average fitness is zero. -/
def loopDecision (g : ℕ) (avg_prev avg_new mutation_rate : ℚ) : Option (Bool × ℚ) :=
  if 100 < g then
    if avg_prev = 0 then none
    else if avg_new / avg_prev < 101/100 then some (true, mutation_rate)
    else some (false, mutation_rate * MUTATION_RATE_DECAY)
  else some (false, mutation_rate)

/-- Line 277: `max(enumerate(population_fitness), key=lambda p: p[1])` —
Python's `max` keeps the current item on ties, so this is the first index
attaining the maximum; `max` of an empty sequence raises (`none`). -/
def pyMaxEnum (l : List ℚ) : Option (ℕ × ℚ) :=
  match l.enum with
  | [] => none
  | p :: ps => some (ps.foldl (fun best q => if best.2 < q.2 then q else best) p)

/-- The schedule construction of `main` (lines 223-253): the parsed fields are
packed into a `Schedule` directly, with no validation of any kind. -/
def load_schedule (activities : List Activity) (facilitators : List String)
    (rooms : List Room) (times : List Int) : Schedule :=
  ⟨activities, facilitators, rooms, times⟩

/-- The three-branch capacity rule as the specification words it: ratio below
1 gives `-0.5`, ratio above 3 gives `-0.2`, otherwise `+0.3`.  Stated from
the spec, to be compared with the source's `capacityFitTerm`. -/
def capacityFitThreeBranch (r : ℚ) : ℚ :=
  if r < 1 then -(1/2)
  else if 3 < r then -(1/5)
  else 3/10

/-- A room in a mapped building, for the concrete scenarios. -/
def slaterRoom : Room := ⟨"Slater", 1, 10⟩

def act101A : Activity := ⟨"SLA", 101, some "A", 10, ["F"], []⟩

def act101B : Activity := ⟨"SLA", 101, some "B", 10, ["F"], []⟩

def act191A : Activity := ⟨"SLA", 191, some "A", 10, ["F"], []⟩

def act191B : Activity := ⟨"SLA", 191, some "B", 10, ["F"], []⟩

/-- The toy Schedule of the end-to-end scenario: two activities `SLA101A` and
`SLA101B`, one facilitator, one room, two time slots. -/
def toySchedule2 : Schedule := ⟨[act101A, act101B], ["F"], [slaterRoom], [0, 1]⟩

/-- The generation-0 candidate `make_random_assignment` produces on
`toySchedule2` with the all-zero oracle. -/
def toyCand2 : ScheduleAssignment :=
  ⟨toySchedule2,
    [("SLA101A", ⟨act101A, "F", slaterRoom, 0⟩), ("SLA101B", ⟨act101B, "F", slaterRoom, 0⟩)]⟩

/-- A schedule holding three of the four required named activities: `SLA191B`
is missing. -/
def toySchedule3 : Schedule := ⟨[act101A, act101B, act191A], ["F"], [slaterRoom], [0, 1]⟩

/-- The candidate `make_random_assignment` produces on `toySchedule3` with the
all-zero oracle. -/
def toyCand3 : ScheduleAssignment :=
  ⟨toySchedule3,
    [("SLA101A", ⟨act101A, "F", slaterRoom, 0⟩), ("SLA101B", ⟨act101B, "F", slaterRoom, 0⟩),
      ("SLA191A", ⟨act191A, "F", slaterRoom, 0⟩)]⟩

/-- A four-activity schedule containing all required named activities. -/
def toySchedule4 : Schedule :=
  ⟨[act101A, act101B, act191A, act191B], ["F"], [slaterRoom], [0, 1]⟩

/-- The candidate `make_random_assignment` produces on `toySchedule4` with the
all-zero oracle. -/
def toyCand4 : ScheduleAssignment :=
  ⟨toySchedule4,
    [("SLA101A", ⟨act101A, "F", slaterRoom, 0⟩), ("SLA101B", ⟨act101B, "F", slaterRoom, 0⟩),
      ("SLA191A", ⟨act191A, "F", slaterRoom, 0⟩), ("SLA191B", ⟨act191B, "F", slaterRoom, 0⟩)]⟩

/-- One concrete gene, for the concrete scenarios. -/
def geneA0 : ActivityAssignment := ⟨act101A, "F", slaterRoom, 0⟩

/-- A second parent on `toySchedule4`, differing from `toyCand4` in every
gene's time slot. -/
def toyCand4b : ScheduleAssignment :=
  ⟨toySchedule4,
    [("SLA101A", ⟨act101A, "F", slaterRoom, 1⟩), ("SLA101B", ⟨act101B, "F", slaterRoom, 1⟩),
      ("SLA191A", ⟨act191A, "F", slaterRoom, 1⟩), ("SLA191B", ⟨act191B, "F", slaterRoom, 1⟩)]⟩

/-- The offspring of crossing `toyCand4` and `toyCand4b` at crossover point 1
with no mutation: the first gene from parent a, the rest from parent b. -/
def toyOffspring : ScheduleAssignment :=
  ⟨toySchedule4,
    [("SLA101A", ⟨act101A, "F", slaterRoom, 0⟩), ("SLA101B", ⟨act101B, "F", slaterRoom, 1⟩),
      ("SLA191A", ⟨act191A, "F", slaterRoom, 1⟩), ("SLA191B", ⟨act191B, "F", slaterRoom, 1⟩)]⟩

theorem buildGenes_keys (gene : ℕ → Activity → Option ActivityAssignment) :
    ∀ (acts : List Activity) (i : ℕ) (l : List (String × ActivityAssignment)),
      buildGenes gene i acts = some l → l.map Prod.fst = acts.map Activity.get_id := by
  intro acts
  induction acts with
  | nil =>
    intro i l h
    simp only [buildGenes, Option.some.injEq] at h
    subst h
    simp
  | cons act rest ih =>
    intro i l h
    simp only [buildGenes] at h
    cases hg : gene i act with
    | none => rw [hg] at h; simp at h
    | some g =>
      cases ht : buildGenes gene (i + 1) rest with
      | none => rw [hg, ht] at h; simp at h
      | some tail =>
        rw [hg, ht] at h
        simp only [Option.some.injEq] at h
        subst h
        simp [ih (i + 1) tail ht]

theorem buildGenes_lookup (gene : ℕ → Activity → Option ActivityAssignment) :
    ∀ (acts : List Activity) (i : ℕ) (l : List (String × ActivityAssignment)),
      buildGenes gene i acts = some l →
      (acts.map Activity.get_id).Nodup →
      ∀ (j : ℕ) (act : Activity), acts.get? j = some act →
        l.lookup act.get_id = gene (i + j) act := by
  intro acts
  induction acts with
  | nil => intro i l _ _ j act hj; simp at hj
  | cons hd rest ih =>
    intro i l hb hnd j act hj
    simp only [buildGenes] at hb
    cases hg : gene i hd with
    | none => rw [hg] at hb; simp at hb
    | some g =>
      cases ht : buildGenes gene (i + 1) rest with
      | none => rw [hg, ht] at hb; simp at hb
      | some tail =>
        rw [hg, ht] at hb
        simp only [Option.some.injEq] at hb
        subst hb
        cases j with
        | zero =>
          simp only [List.get?] at hj
          injection hj with hj'
          subst hj'
          simp [List.lookup, hg]
        | succ j' =>
          simp only [List.get?] at hj
          have hmem : act ∈ rest := List.get?_mem hj
          have hnotin : hd.get_id ∉ rest.map Activity.get_id := by
            simp only [List.map_cons, List.nodup_cons] at hnd
            exact hnd.1
          have hne : (act.get_id == hd.get_id) = false := by
            refine beq_eq_false_iff_ne.mpr ?_
            intro he
            exact hnotin (he ▸ List.mem_map_of_mem Activity.get_id hmem)
          rw [List.lookup, hne]
          rw [show i + (j' + 1) = i + 1 + j' from by omega]
          exact ih (i + 1) tail ht (by
            simp only [List.map_cons, List.nodup_cons] at hnd
            exact hnd.2) j' act hj

/-- C1: for a Schedule with pairwise-distinct activity identifiers, every
candidate built by `ScheduleAssignment.make_random_assignment` and every
offspring of `cross_schedules` has key set exactly the set of the
Schedule's activity identifiers — no activity unassigned, no extra key and
no duplicate key, for every crossover point and every mutation pattern. -/
theorem assignments_cover_exactly_the_schedule_ids :
    (∀ (s : Schedule) (r : ℕ → ℕ) (sa : ScheduleAssignment),
        (s.activities.map Activity.get_id).Nodup →
        ScheduleAssignment.make_random_assignment s r = some sa →
        (sa.activities.map Prod.fst).Nodup ∧
          ∀ id, id ∈ sa.activities.map Prod.fst ↔ id ∈ s.activities.map Activity.get_id) ∧
    (∀ (s : Schedule) (a b : ScheduleAssignment) (rate : ℚ) (chiasma : ℕ) (m : ℕ → ℚ)
        (r : ℕ → ℕ) (o : ScheduleAssignment),
        (s.activities.map Activity.get_id).Nodup →
        cross_schedules s a b rate chiasma m r = some o →
        (o.activities.map Prod.fst).Nodup ∧
          ∀ id, id ∈ o.activities.map Prod.fst ↔ id ∈ s.activities.map Activity.get_id) := by
  constructor
  · intro s r sa hnd h
    simp only [ScheduleAssignment.make_random_assignment] at h
    cases hb : buildGenes (fun i act =>
        ActivityAssignment.make_random_assignment s act
          (r (3 * i)) (r (3 * i + 1)) (r (3 * i + 2))) 0 s.activities with
    | none => rw [hb] at h; simp at h
    | some acts =>
      rw [hb] at h
      simp only [Option.map_some', Option.some.injEq] at h
      subst h
      have hkeys := buildGenes_keys _ _ _ _ hb
      exact ⟨hkeys ▸ hnd, fun id => by rw [hkeys]⟩
  · intro s a b rate chiasma m r o hnd h
    simp only [cross_schedules] at h
    cases hb : buildGenes (crossGene s a b rate chiasma m r) 0 s.activities with
    | none => rw [hb] at h; simp at h
    | some acts =>
      rw [hb] at h
      simp only [Option.map_some', Option.some.injEq] at h
      subst h
      have hkeys := buildGenes_keys _ _ _ _ hb
      exact ⟨hkeys ▸ hnd, fun id => by rw [hkeys]⟩

/-- Witness for C1 at the concrete four-activity schedule. -/
theorem assignments_cover_exactly_the_schedule_ids_witness :
    "SLA101A" ∈ toyCand4.activities.map Prod.fst ↔
      "SLA101A" ∈ toySchedule4.activities.map Activity.get_id := by
  have h := (assignments_cover_exactly_the_schedule_ids.1 toySchedule4 (fun _ => 0) toyCand4
    (by decide) (by decide)).2
  exact h "SLA101A"

theorem cross_schedules_lookup (s : Schedule) (a b : ScheduleAssignment) (rate : ℚ)
    (chiasma : ℕ) (m : ℕ → ℚ) (r : ℕ → ℕ) (o : ScheduleAssignment)
    (hnd : (s.activities.map Activity.get_id).Nodup)
    (h : cross_schedules s a b rate chiasma m r = some o) :
    ∀ (j : ℕ) (act : Activity), s.activities.get? j = some act →
      o.activities.lookup act.get_id = crossGene s a b rate chiasma m r j act := by
  intro j act hj
  simp only [cross_schedules] at h
  cases hb : buildGenes (crossGene s a b rate chiasma m r) 0 s.activities with
  | none => rw [hb] at h; simp at h
  | some acts =>
    rw [hb] at h
    simp only [Option.map_some', Option.some.injEq] at h
    subst h
    have := buildGenes_lookup _ _ _ _ hb hnd j act hj
    simpa using this

/-- C3: each offspring gene of `cross_schedules` is a fresh random assignment
when its mutation draw fires, parent `a`'s gene when its index is strictly
before the crossover point, and parent `b`'s gene otherwise; hence with
`mutation_rate = 0` and identical parents the offspring equals the parent
gene for gene, and with `mutation_rate = 1` every gene is a fresh random
assignment with both parents ignored. -/
theorem cross_schedules_gene_rule :
    (∀ (s : Schedule) (a b : ScheduleAssignment) (rate : ℚ) (chiasma : ℕ) (m : ℕ → ℚ)
        (r : ℕ → ℕ) (o : ScheduleAssignment),
        (s.activities.map Activity.get_id).Nodup →
        cross_schedules s a b rate chiasma m r = some o →
        ∀ (j : ℕ) (act : Activity), s.activities.get? j = some act →
          o.activities.lookup act.get_id =
            (if m j < rate then
              ActivityAssignment.make_random_assignment s act
                (r (3 * j)) (r (3 * j + 1)) (r (3 * j + 2))
            else if j < chiasma then a.activities.lookup act.get_id
            else b.activities.lookup act.get_id)) ∧
    (∀ (s : Schedule) (a : ScheduleAssignment) (chiasma : ℕ) (m : ℕ → ℚ)
        (r : ℕ → ℕ) (o : ScheduleAssignment),
        (s.activities.map Activity.get_id).Nodup →
        (∀ i, 0 ≤ m i) →
        cross_schedules s a a 0 chiasma m r = some o →
        ∀ (j : ℕ) (act : Activity), s.activities.get? j = some act →
          o.activities.lookup act.get_id = a.activities.lookup act.get_id) ∧
    (∀ (s : Schedule) (a b : ScheduleAssignment) (chiasma : ℕ) (m : ℕ → ℚ)
        (r : ℕ → ℕ) (o : ScheduleAssignment),
        (s.activities.map Activity.get_id).Nodup →
        (∀ i, m i < 1) →
        cross_schedules s a b 1 chiasma m r = some o →
        ∀ (j : ℕ) (act : Activity), s.activities.get? j = some act →
          o.activities.lookup act.get_id =
            ActivityAssignment.make_random_assignment s act
              (r (3 * j)) (r (3 * j + 1)) (r (3 * j + 2))) := by
  refine ⟨?_, ?_, ?_⟩
  · intro s a b rate chiasma m r o hnd h j act hj
    rw [cross_schedules_lookup s a b rate chiasma m r o hnd h j act hj]
    rfl
  · intro s a chiasma m r o hnd hm h j act hj
    rw [cross_schedules_lookup s a a 0 chiasma m r o hnd h j act hj]
    simp only [crossGene]
    rw [if_neg (not_lt.mpr (hm j))]
    by_cases hc : j < chiasma
    · rw [if_pos hc]
    · rw [if_neg hc]
  · intro s a b chiasma m r o hnd hm h j act hj
    rw [cross_schedules_lookup s a b 1 chiasma m r o hnd h j act hj]
    simp only [crossGene, if_pos (hm j)]

/-- Witness for C3 at the concrete four-activity schedule: crossover of two
distinct parents at crossover point 1 with no mutation takes the second
gene from parent b. -/
theorem cross_schedules_gene_rule_witness :
    toyOffspring.activities.lookup (Activity.get_id act101B) =
      toyCand4b.activities.lookup (Activity.get_id act101B) := by
  have h := cross_schedules_gene_rule.1 toySchedule4 toyCand4 toyCand4b 0 1
    (fun _ => 2) (fun _ => 0) toyOffspring (by decide) (by rfl) 1 act101B (by rfl)
  rw [h]
  norm_num

/-- C10: when no gene takes the mutation branch, the gene at the last index
is always copied from parent `b` (the crossover point, drawn from
`[0, number_of_activities - 1]`, is never strictly above the last index),
and when the crossover point is 0 every gene comes from parent `b`. -/
theorem last_gene_always_from_parent_b :
    (∀ (s : Schedule) (a b : ScheduleAssignment) (rate : ℚ) (chiasma : ℕ) (m : ℕ → ℚ)
        (r : ℕ → ℕ) (o : ScheduleAssignment) (act : Activity),
        (s.activities.map Activity.get_id).Nodup →
        (∀ i, ¬ m i < rate) →
        chiasma ≤ s.activities.length - 1 →
        s.activities.get? (s.activities.length - 1) = some act →
        cross_schedules s a b rate chiasma m r = some o →
        o.activities.lookup act.get_id = b.activities.lookup act.get_id) ∧
    (∀ (s : Schedule) (a b : ScheduleAssignment) (rate : ℚ) (m : ℕ → ℚ)
        (r : ℕ → ℕ) (o : ScheduleAssignment),
        (s.activities.map Activity.get_id).Nodup →
        (∀ i, ¬ m i < rate) →
        cross_schedules s a b rate 0 m r = some o →
        ∀ (j : ℕ) (act : Activity), s.activities.get? j = some act →
          o.activities.lookup act.get_id = b.activities.lookup act.get_id) := by
  constructor
  · intro s a b rate chiasma m r o act hnd hm hch hact h
    rw [cross_schedules_lookup s a b rate chiasma m r o hnd h _ act hact]
    simp only [crossGene]
    rw [if_neg (hm _), if_neg (by omega)]
  · intro s a b rate m r o hnd hm h j act hj
    rw [cross_schedules_lookup s a b rate 0 m r o hnd h j act hj]
    simp only [crossGene]
    rw [if_neg (hm _), if_neg (by omega)]

/-- Witness for C10: on the concrete four-activity crossover at point 1 with
no mutation, the last gene comes from parent b. -/
theorem last_gene_always_from_parent_b_witness :
    toyOffspring.activities.lookup (Activity.get_id act191B) =
      toyCand4b.activities.lookup (Activity.get_id act191B) := by
  exact last_gene_always_from_parent_b.1 toySchedule4 toyCand4 toyCand4b 0 1
    (fun _ => 2) (fun _ => 0) toyOffspring act191B (by decide)
    (fun i => by norm_num) (by decide) (by rfl) (by rfl)

/-- C2: the capacity-fit conditional with the source's literal branch ordering
agrees with the three-branch rule everywhere, its `> 6` branch (worth `-0.4`)
is unreachable for every ratio, and ratio exactly 1 and exactly 3 both land
in the `+0.3` branch because the boundaries are exclusive. -/
theorem capacity_branch_equivalence :
    (∀ q : ℚ, capacityFitTerm q = capacityFitThreeBranch q ∧ capacityFitTerm q ≠ -(2/5)) ∧
    capacityFitTerm 1 = 3/10 ∧ capacityFitTerm 3 = 3/10 := by
  refine ⟨fun q => ?_, by norm_num [capacityFitTerm], by norm_num [capacityFitTerm]⟩
  unfold capacityFitTerm capacityFitThreeBranch
  split_ifs with h1 h2 h3 <;> norm_num
  linarith

/-- Witness for C2 at ratio 2. -/
theorem capacity_branch_equivalence_witness :
    capacityFitTerm 2 = capacityFitThreeBranch 2 ∧ capacityFitTerm 2 ≠ -(2/5) :=
  capacity_branch_equivalence.1 2

/-- C4: the room/time-conflict rule subtracts exactly `0.5 × k` for a
`(room, time)` pair shared by `k ≥ 2` genes — in particular a whole
candidate whose `k ≥ 2` genes all share one pair scores `-(1/2) * k` from
this rule — and a pair held by a single gene contributes nothing. -/
theorem room_time_penalty_scales_with_group_size :
    (∀ (genes : List ActivityAssignment) (room : Room) (t : Int) (k : ℕ),
        (∀ g ∈ genes, g.room = room ∧ g.time = t) →
        genes.length = k → 2 ≤ k →
        roomTimePenalty genes = -(1/2) * k) ∧
    (∀ k : ℕ, 2 ≤ k → roomTimeTerm k = -(1/2) * k) ∧
    roomTimeTerm 1 = 0 ∧ roomTimeTerm 0 = 0 := by
  refine ⟨?_, fun k hk => by rw [roomTimeTerm, if_pos hk], by norm_num [roomTimeTerm],
    by norm_num [roomTimeTerm]⟩
  intro genes room t k hall hlen hk
  have hpairs : genes.map (fun g => (g.room, g.time)) = List.replicate k (room, t) := by
    rw [← hlen, ← List.length_map genes (fun g => (g.room, g.time))]
    refine List.eq_replicate_length.mpr ?_
    intro b hb
    obtain ⟨g, hg, rfl⟩ := List.mem_map.mp hb
    obtain ⟨h1, h2⟩ := hall g hg
    rw [h1, h2]
  rw [roomTimePenalty]
  simp only [hpairs]
  rw [List.replicate_dedup (by omega)]
  simp only [List.map_cons, List.map_nil, List.sum_cons, List.sum_nil, add_zero]
  rw [List.count_replicate_self]
  rw [roomTimeTerm, if_pos hk]

/-- Witness for C4: three genes sharing one room and time contribute `-1.5`
from the room/time rule. -/
theorem room_time_penalty_scales_with_group_size_witness :
    roomTimePenalty [geneA0, geneA0, geneA0] = -(1/2) * 3 :=
  room_time_penalty_scales_with_group_size.1 [geneA0, geneA0, geneA0]
    slaterRoom 0 3 (by decide) rfl (by norm_num)

/-- C5: the facilitator-load rule subtracts 0.4 at load exactly 1 or 2 and
0.5 at load above 4, contributes nothing at loads 3 and 4, and the
configured exempt facilitator is skipped exactly when its load is below 2 —
so the exempt facilitator still loses 0.4 at load exactly 2. -/
theorem facilitator_load_rule :
    (∀ f : String, f ≠ "Tyler" → facilitatorLoadTerm f 1 = -(2/5)) ∧
    (∀ f : String, f ≠ "Tyler" → facilitatorLoadTerm f 2 = -(2/5)) ∧
    (∀ (f : String) (load : ℕ), 4 < load → facilitatorLoadTerm f load = -(1/2)) ∧
    (∀ f : String, facilitatorLoadTerm f 3 = 0) ∧
    (∀ f : String, facilitatorLoadTerm f 4 = 0) ∧
    facilitatorLoadTerm "Tyler" 2 = -(2/5) ∧
    facilitatorLoadTerm "Tyler" 1 = 0 := by
  refine ⟨fun f hf => ?_, fun f hf => ?_, fun f load hl => ?_, fun f => ?_, fun f => ?_,
    by norm_num [facilitatorLoadTerm], by norm_num [facilitatorLoadTerm]⟩
  · simp [facilitatorLoadTerm, hf]
  · simp [facilitatorLoadTerm, hf]
  · rw [facilitatorLoadTerm, if_neg (by omega), if_neg (by omega), if_pos hl]
  · rw [facilitatorLoadTerm, if_neg (by omega), if_neg (by omega), if_neg (by omega)]
  · rw [facilitatorLoadTerm, if_neg (by omega), if_neg (by omega), if_neg (by omega)]

/-- Witness for C5 at a non-exempt facilitator with load 1 and load 5. -/
theorem facilitator_load_rule_witness :
    facilitatorLoadTerm "Pat" 1 = -(2/5) ∧ facilitatorLoadTerm "Pat" 5 = -(1/2) :=
  ⟨facilitator_load_rule.1 "Pat" (by decide),
    facilitator_load_rule.2.2.1 "Pat" 5 (by norm_num)⟩

/-- C7: the evolution loop never stops while the generation counter is at
most 100; once the decision is checked (counter above 100) and the
average-fitness ratio exists, it stops exactly when that ratio is below
1.01 and otherwise carries the mutation rate multiplied by the fixed decay
factor into the next generation; when the previous average is zero the
checked division itself fails and the run aborts instead of stopping or
decaying. -/
theorem convergence_decision :
    (∀ (g : ℕ) (p n rate : ℚ), g ≤ 100 → loopDecision g p n rate = some (false, rate)) ∧
    (∀ (g : ℕ) (p n rate : ℚ), 100 < g → p ≠ 0 → n / p < 101/100 →
        loopDecision g p n rate = some (true, rate)) ∧
    (∀ (g : ℕ) (p n rate : ℚ), 100 < g → p ≠ 0 → ¬ n / p < 101/100 →
        loopDecision g p n rate = some (false, rate * MUTATION_RATE_DECAY)) ∧
    (∀ (g : ℕ) (p n rate : ℚ), 100 < g → p = 0 → loopDecision g p n rate = none) := by
  refine ⟨fun g p n rate hg => ?_, fun g p n rate hg hp hr => ?_,
    fun g p n rate hg hp hr => ?_, fun g p n rate hg hp => ?_⟩
  · rw [loopDecision, if_neg (by omega)]
  · rw [loopDecision, if_pos hg, if_neg hp, if_pos hr]
  · rw [loopDecision, if_pos hg, if_neg hp, if_neg hr]
  · rw [loopDecision, if_pos hg, if_pos hp]

/-- Witness for C7 at generations 50 and 101, including the aborting
zero-previous-average case. -/
theorem convergence_decision_witness :
    loopDecision 50 1 2 (1/10) = some (false, 1/10) ∧
    loopDecision 101 1 1 (1/10) = some (true, 1/10) ∧
    loopDecision 101 1 2 (1/10) = some (false, (1/10) * MUTATION_RATE_DECAY) ∧
    loopDecision 101 0 5 (1/10) = none :=
  ⟨convergence_decision.1 50 1 2 (1/10) (by norm_num),
    convergence_decision.2.1 101 1 1 (1/10) (by norm_num) (by norm_num) (by norm_num),
    convergence_decision.2.2.1 101 1 2 (1/10) (by norm_num) (by norm_num) (by norm_num),
    convergence_decision.2.2.2 101 0 5 (1/10) (by norm_num) rfl⟩

theorem drawOne_spec (p : ℕ) (avail : List (ℕ × ℚ)) (i : ℕ) (rest : List (ℕ × ℚ))
    (h : drawOne p avail = some (i, rest)) :
    i ∈ avail.map Prod.fst ∧ ∀ x ∈ rest, x.1 ∈ avail.map Prod.fst ∧ x.1 ≠ i := by
  simp only [drawOne] at h
  cases hx : (avail.filter (fun x => decide (0 < x.2))).get?
      (p % (avail.filter (fun x => decide (0 < x.2))).length) with
  | none => rw [hx] at h; simp at h
  | some x =>
    rw [hx] at h
    simp only [Option.some.injEq, Prod.mk.injEq] at h
    obtain ⟨rfl, rfl⟩ := h
    constructor
    · exact List.mem_map_of_mem Prod.fst (List.mem_of_mem_filter (List.get?_mem hx))
    · intro y hy
      have hmem := List.mem_of_mem_filter hy
      have hprop := List.of_mem_filter hy
      exact ⟨List.mem_map_of_mem Prod.fst hmem, by simpa using hprop⟩

theorem sampleNoReplace_spec (pick : ℕ → ℕ) :
    ∀ (k : ℕ) (avail : List (ℕ × ℚ)) (l : List ℕ),
      sampleNoReplace pick k avail = some l →
      l.length = k ∧ l.Nodup ∧ ∀ i ∈ l, i ∈ avail.map Prod.fst := by
  intro k
  induction k with
  | zero =>
    intro avail l h
    simp only [sampleNoReplace, Option.some.injEq] at h
    subst h
    simp
  | succ k ih =>
    intro avail l h
    simp only [sampleNoReplace] at h
    cases hd : drawOne (pick k) avail with
    | none => rw [hd] at h; simp at h
    | some pr =>
      obtain ⟨i, rest⟩ := pr
      rw [hd] at h
      dsimp only at h
      cases hs : sampleNoReplace pick k rest with
      | none => rw [hs] at h; simp at h
      | some l' =>
        rw [hs] at h
        simp only [Option.map_some', Option.some.injEq] at h
        subst h
        obtain ⟨hlen, hnd, hsub⟩ := ih rest l' hs
        obtain ⟨hi, hrest⟩ := drawOne_spec (pick k) avail i rest hd
        refine ⟨by simp [hlen], ?_, ?_⟩
        · rw [List.nodup_cons]
          refine ⟨?_, hnd⟩
          intro hmem
          obtain ⟨x, hx, hxi⟩ := List.mem_map.mp (hsub i hmem)
          exact (hrest x hx).2 hxi
        · intro j hj
          rcases List.mem_cons.mp hj with rfl | hj'
          · exact hi
          · obtain ⟨x, hx, rfl⟩ := List.mem_map.mp (hsub j hj')
            exact (hrest x hx).1

/-- C6: the parent-pool draw of `get_next_generation` — `numpy.random.choice`
with `replace=False` over the softmax distribution of the fitness vector,
the softmax weights being the strictly positive `weights` argument — never
contains the same population index twice, always has exactly the requested
size, only contains valid population indices, and a pool larger than the
population is never drawn (the call fails instead). -/
theorem selection_no_replacement :
    (∀ (pick : ℕ → ℕ) (k n : ℕ) (weights : List ℚ) (l : List ℕ),
        weights.length = n →
        draw_parent_pool n weights k pick = some l →
        l.Nodup ∧ l.length = k ∧ ∀ i ∈ l, i < n) ∧
    (∀ (pick : ℕ → ℕ) (k n : ℕ) (weights : List ℚ),
        weights.length = n → n < k →
        draw_parent_pool n weights k pick = none) := by
  constructor
  · intro pick k n weights l hw h
    simp only [draw_parent_pool, numpy_choice_indices] at h
    split at h
    · simp at h
    · obtain ⟨hlen, hnd, hsub⟩ := sampleNoReplace_spec pick k _ l h
      refine ⟨hnd, hlen, fun i hi => ?_⟩
      have := hsub i hi
      rw [List.map_fst_zip _ _ (by simp [hw])] at this
      exact List.mem_range.mp this
  · intro pick k n weights hw hk
    simp only [draw_parent_pool, numpy_choice_indices]
    rw [if_pos]
    simp [hw, hk]

/-- Witness for C6: a concrete pool of 2 indices drawn from a population of
3 with uniform weights is duplicate-free, and asking for 5 parents from a
population of 2 fails. -/
theorem selection_no_replacement_witness :
    ([0, 1] : List ℕ).Nodup ∧ draw_parent_pool 2 [1, 1] 5 (fun _ => 0) = none :=
  ⟨(selection_no_replacement.1 (fun _ => 0) 2 3 [1, 1, 1] [0, 1] rfl (by rfl)).1,
    selection_no_replacement.2 (fun _ => 0) 5 2 [1, 1] rfl (by norm_num)⟩

theorem pyMax_foldl_mem (p : ℕ × ℚ) (ps : List (ℕ × ℚ)) :
    ps.foldl (fun best q => if best.2 < q.2 then q else best) p ∈ p :: ps := by
  induction ps generalizing p with
  | nil => simp
  | cons c cs ih =>
    simp only [List.foldl_cons]
    by_cases h : p.2 < c.2
    · rw [if_pos h]
      exact List.mem_cons_of_mem p (ih c)
    · rw [if_neg h]
      rcases List.mem_cons.mp (ih p) with h' | h'
      · rw [List.mem_cons]
        left
        exact h'
      · exact List.mem_cons_of_mem p (List.mem_cons_of_mem c h')

theorem pyMax_foldl_ge (p : ℕ × ℚ) (ps : List (ℕ × ℚ)) :
    ∀ q ∈ p :: ps, q.2 ≤ (ps.foldl (fun best q => if best.2 < q.2 then q else best) p).2 := by
  induction ps generalizing p with
  | nil =>
    intro q hq
    rcases List.mem_cons.mp hq with h | h
    · rw [h, List.foldl_nil]
    · simp at h
  | cons c cs ih =>
    intro q hq
    simp only [List.foldl_cons]
    by_cases h : p.2 < c.2
    · rw [if_pos h]
      rcases List.mem_cons.mp hq with h' | h'
      · rw [h']
        exact le_trans (le_of_lt h) (ih c c (List.mem_cons_self c cs))
      · rcases List.mem_cons.mp h' with h'' | h''
        · rw [h'']
          exact ih c c (List.mem_cons_self c cs)
        · exact ih c q (List.mem_cons_of_mem c h'')
    · rw [if_neg h]
      rcases List.mem_cons.mp hq with h' | h'
      · rw [h']
        exact ih p p (List.mem_cons_self p cs)
      · rcases List.mem_cons.mp h' with h'' | h''
        · rw [h'']
          exact le_trans (not_lt.mp h) (ih p p (List.mem_cons_self p cs))
        · exact ih p q (List.mem_cons_of_mem p h'')

/-- C8 counterexample: on the toy Schedule with only the two activities
`SLA101A` and `SLA101B`, generation 0 is built, but evaluating any of its
members fails (the evaluator looks up the absent `SLA191A`), so the run
never reaches the evolution loop, let alone convergence. -/
theorem toy_two_activity_scenario_fails :
    ScheduleAssignment.make_random_assignment toySchedule2 (fun _ => 0) = some toyCand2 ∧
    get_fitness toyCand2 = none := by
  exact ⟨by rfl, by rfl⟩

/-- C8 amended: the reported best candidate is the first maximal-fitness
member of the final population — its fitness bounds every member of the
final population (not of generation 0) — and any offspring the generation
operators deliver covers exactly the Schedule's activity identifiers. -/
theorem best_of_final_population :
    (∀ fit : List ℚ, fit ≠ [] → (pyMaxEnum fit).isSome) ∧
    (∀ (fit : List ℚ) (i : ℕ) (v : ℚ), pyMaxEnum fit = some (i, v) →
        fit.get? i = some v ∧ ∀ x ∈ fit, x ≤ v) ∧
    (∀ (s : Schedule) (a b : ScheduleAssignment) (rate : ℚ) (chiasma : ℕ)
        (m : ℕ → ℚ) (r : ℕ → ℕ) (o : ScheduleAssignment),
        cross_schedules s a b rate chiasma m r = some o →
        o.activities.map Prod.fst = s.activities.map Activity.get_id) := by
  refine ⟨?_, ?_, ?_⟩
  · intro fit hne
    rw [pyMaxEnum]
    cases he : fit.enum with
    | nil =>
      exfalso
      exact hne (by simpa using congrArg (List.map Prod.snd) he)
    | cons p ps => simp
  · intro fit i v h
    rw [pyMaxEnum] at h
    cases he : fit.enum with
    | nil => rw [he] at h; simp at h
    | cons p ps =>
      rw [he] at h
      simp only [Option.some.injEq] at h
      have hmem : (i, v) ∈ fit.enum := by
        rw [he, ← h]
        exact pyMax_foldl_mem p ps
      constructor
      · rw [List.get?_eq_getElem?]
        exact List.mk_mem_enum_iff_getElem?.mp hmem
      · intro x hx
        obtain ⟨j, hj⟩ := List.mem_iff_getElem?.mp hx
        have hxmem : (j, x) ∈ fit.enum := List.mk_mem_enum_iff_getElem?.mpr hj
        rw [he] at hxmem
        have := pyMax_foldl_ge p ps (j, x) hxmem
        rw [h] at this
        exact this
  · intro s a b rate chiasma m r o h
    simp only [cross_schedules] at h
    cases hb : buildGenes (crossGene s a b rate chiasma m r) 0 s.activities with
    | none => rw [hb] at h; simp at h
    | some acts =>
      rw [hb] at h
      simp only [Option.map_some', Option.some.injEq] at h
      subst h
      exact buildGenes_keys _ _ _ _ hb

/-- Witness for C8 amended, at the fitness vector `[1, 3, 2]` and the
concrete crossover of the four-activity schedule. -/
theorem best_of_final_population_witness :
    (pyMaxEnum [1, 3, 2]).isSome ∧
    ([1, 3, 2] : List ℚ).get? 1 = some 3 ∧ (2 : ℚ) ≤ 3 ∧
    toyOffspring.activities.map Prod.fst = toySchedule4.activities.map Activity.get_id := by
  have h1 := best_of_final_population.1 [1, 3, 2] (by simp)
  have h2 := best_of_final_population.2.1 [1, 3, 2] 1 3 (by rfl)
  have h3 := best_of_final_population.2.2 toySchedule4 toyCand4 toyCand4b 0 1
    (fun _ => 2) (fun _ => 0) toyOffspring (by rfl)
  exact ⟨h1, h2.1, h2.2 2 (by norm_num), h3⟩

theorem geneClusters_eq_none {genes : List ActivityAssignment} {g : ActivityAssignment}
    (hg : g ∈ genes) (hc : clusterOf g.room.building = none) :
    geneClusters genes = none := by
  induction genes with
  | nil => simp at hg
  | cons hd rest ih =>
    rcases List.mem_cons.mp hg with rfl | hmem
    · cases h2 : geneClusters rest <;> simp [geneClusters, hc, h2]
    · cases hcl : clusterOf hd.room.building <;> simp [geneClusters, hcl, ih hmem]

theorem namedGenes_eq_none {sa : ScheduleAssignment} {id : String}
    (hid : id ∈ ["SLA101A", "SLA101B", "SLA191A", "SLA191B"])
    (h : sa.activities.lookup id = none) : namedGenes sa = none := by
  simp only [List.mem_cons, List.mem_singleton, List.not_mem_nil, or_false] at hid
  rcases hid with rfl | rfl | rfl | rfl
  · cases h2 : sa.activities.lookup "SLA101B" <;>
      cases h3 : sa.activities.lookup "SLA191A" <;>
        cases h4 : sa.activities.lookup "SLA191B" <;>
          simp [namedGenes, h, h2, h3, h4]
  · cases h1 : sa.activities.lookup "SLA101A" <;>
      cases h3 : sa.activities.lookup "SLA191A" <;>
        cases h4 : sa.activities.lookup "SLA191B" <;>
          simp [namedGenes, h, h1, h3, h4]
  · cases h1 : sa.activities.lookup "SLA101A" <;>
      cases h2 : sa.activities.lookup "SLA101B" <;>
        cases h4 : sa.activities.lookup "SLA191B" <;>
          simp [namedGenes, h, h1, h2, h4]
  · cases h1 : sa.activities.lookup "SLA101A" <;>
      cases h2 : sa.activities.lookup "SLA101B" <;>
        cases h3 : sa.activities.lookup "SLA191A" <;>
          simp [namedGenes, h, h1, h2, h3]

theorem get_fitness_eq_none_of_namedGenes {sa : ScheduleAssignment}
    (h : namedGenes sa = none) : get_fitness sa = none := by
  cases h1 : geneClusters (sa.activities.map Prod.snd) <;>
    cases h2 : capacityTerms (sa.activities.map Prod.snd) <;>
      simp [get_fitness, h1, h2, h]

theorem get_fitness_eq_none_of_cluster {sa : ScheduleAssignment} {g : ActivityAssignment}
    (hg : g ∈ sa.activities.map Prod.snd) (hc : clusterOf g.room.building = none) :
    get_fitness sa = none := by
  have h1 := geneClusters_eq_none hg hc
  cases h2 : capacityTerms (sa.activities.map Prod.snd) <;>
    cases h3 : namedGenes sa <;> simp [get_fitness, h1, h2, h3]

/-- C9 counterexample: a Schedule missing the required `SLA191B` passes
loading untouched (loading performs no validation), generation 0 is built
from it, and the run proceeds into fitness evaluation, which is where it
fails — not at load time. -/
theorem missing_activity_passes_load_and_fails_in_evaluation :
    load_schedule [act101A, act101B, act191A] ["F"] [slaterRoom] [0, 1] = toySchedule3 ∧
    ScheduleAssignment.make_random_assignment toySchedule3 (fun _ => 0) = some toyCand3 ∧
    get_fitness toyCand3 = none := by
  exact ⟨by rfl, by rfl, by rfl⟩

/-- C9 amended: loading performs no validation; a candidate missing any of
the four required named activities, or containing a gene whose room's
building is not in the building-cluster mapping, makes `get_fitness` fail —
so the run dies at the first fitness evaluation of the initial population,
which happens before the evolution loop starts, not at load time. -/
theorem config_error_fails_at_first_evaluation :
    (∀ (acts : List Activity) (facs : List String) (rooms : List Room) (times : List Int),
        load_schedule acts facs rooms times = Schedule.mk acts facs rooms times) ∧
    (∀ (sa : ScheduleAssignment) (id : String),
        id ∈ ["SLA101A", "SLA101B", "SLA191A", "SLA191B"] →
        sa.activities.lookup id = none →
        get_fitness sa = none) ∧
    (∀ (sa : ScheduleAssignment) (g : ActivityAssignment),
        g ∈ sa.activities.map Prod.snd →
        clusterOf g.room.building = none →
        get_fitness sa = none) := by
  refine ⟨fun _ _ _ _ => rfl, ?_, ?_⟩
  · intro sa id hid h
    exact get_fitness_eq_none_of_namedGenes (namedGenes_eq_none hid h)
  · intro sa g hg hc
    exact get_fitness_eq_none_of_cluster hg hc

/-- Witness for C9 amended: a candidate on an unmapped building fails
evaluation. -/
theorem config_error_fails_at_first_evaluation_witness :
    get_fitness ⟨toySchedule4, [("SLA101A", ⟨act101A, "F", ⟨"Gym", 1, 10⟩, 0⟩)]⟩ = none := by
  exact config_error_fails_at_first_evaluation.2.2
    ⟨toySchedule4, [("SLA101A", ⟨act101A, "F", ⟨"Gym", 1, 10⟩, 0⟩)]⟩
    ⟨act101A, "F", ⟨"Gym", 1, 10⟩, 0⟩ (by simp) (by rfl)
